import Mathlib

/-!
Verification of the multer-sharp storage engine (src/index.js) against its
specification. The JavaScript source is shallowly embedded: JS values become
an inductive `JSVal` with JS truthiness and string coercion; option bags are
JS objects (property lists); the sharp transform chain becomes a list of
tagged stages; the callback-driven `_handleFile` / `_removeFile` become pure
functions from resolver outcomes and stream outcomes to the list of callback
invocations and side effects.
-/

namespace MulterSharp

/-- A JavaScript runtime value, restricted to the shapes the engine handles:
`undefined`, `null`, booleans, (integer) numbers, strings, and plain objects
given by their own enumerable properties. -/
inductive JSVal where
  | undefined
  | null
  | boolean (b : Bool)
  | number (n : Int)
  | string (s : String)
  | obj (props : List (String × JSVal))

/-- JS truthiness (`if (v)`), matching ToBoolean on the shapes modelled:
`undefined`, `null`, `false`, `0` and `""` are falsy, everything else truthy. -/
def truthy : JSVal → Bool
  | .undefined => false
  | .null => false
  | .boolean b => b
  | .number n => n != 0
  | .string s => s.length != 0
  | .obj _ => true

/-- JS string coercion (as used by template literals). -/
def jsToString : JSVal → String
  | .undefined => "undefined"
  | .null => "null"
  | .boolean b => if b then "true" else "false"
  | .number n => toString n
  | .string s => s
  | .obj _ => "[object Object]"

/-- Property read `v[k]`: present own property of an object, else `undefined`
(reads on non-objects that the engine performs all yield `undefined`). -/
def JSVal.get (v : JSVal) (k : String) : JSVal :=
  match v with
  | .obj props => ((props.find? (fun p => p.1 == k)).map (fun p => p.2)).getD .undefined
  | _ => .undefined

/-- `Object.prototype.hasOwnProperty.call(v, k)` for the object shapes modelled. -/
def hasOwn (v : JSVal) (k : String) : Bool :=
  match v with
  | .obj props => (props.find? (fun p => p.1 == k)).isSome
  | _ => false

/-- `typeof v === "object"` (true for plain objects and for `null`). -/
def isObjectType : JSVal → Bool
  | .obj _ => true
  | .null => true
  | _ => false

/-- `typeof v === "string"`. -/
def isStringType : JSVal → Bool
  | .string _ => true
  | _ => false

/-- JS `a || b`: the first operand when truthy, else the second. -/
def jsOr (a b : JSVal) : JSVal :=
  if truthy a then a else b

/-- ToPropertyKey coercion used when a value indexes an object. -/
def toPropKey (v : JSVal) : String := jsToString v

/-- `array-includes` on a numeric array: SameValueZero comparison, so only a
number with the same value matches. -/
def jsIncludesNums (l : List Int) (v : JSVal) : Bool :=
  l.any (fun n => match v with
    | .number m => m == n
    | _ => false)

/-- `parseInt(v, 10)`: coerce to string, then parse an optional sign followed
by decimal digits; `none` models NaN. -/
def parseIntJS (v : JSVal) : Option Int :=
  let cs := (jsToString v).toList
  let signAndRest : Int × List Char :=
    match cs with
    | c :: t => if c == Char.ofNat 45 then (-1, t) else if c == Char.ofNat 43 then (1, t) else (1, cs)
    | [] => (1, [])
  let ds := signAndRest.2.takeWhile Char.isDigit
  if ds.isEmpty then none
  else some (signAndRest.1 * Int.ofNat (ds.foldl (fun a c => a * 10 + (c.toNat - 48)) 0))

/-- Models the `mime-types` dependency's `lookup`: a partial map from the
format names the engine documents to their MIME types; any other input
yields `false`, as `lookup` does for unknown or non-string input. The
dependency is an external collaborator, out of scope of the source. -/
def mimeLookup : JSVal → JSVal
  | .string s =>
    if s == "jpeg" then .string "image/jpeg"
    else if s == "jpg" then .string "image/jpeg"
    else if s == "png" then .string "image/png"
    else if s == "webp" then .string "image/webp"
    else if s == "tiff" then .string "image/tiff"
    else if s == "gif" then .string "image/gif"
    else if s == "svg" then .string "image/svg+xml"
    else if s == "pdf" then .string "application/pdf"
    else .boolean false
  | _ => .boolean false

/-- Models the `sharp` dependency's `gravity` constant: named crop anchors
mapped to their numeric codes. External collaborator, out of scope. -/
def sharpGravity : List (String × Int) :=
  [("centre", 0), ("center", 0), ("north", 1), ("east", 2), ("south", 3),
   ("west", 4), ("northeast", 5), ("southeast", 6), ("southwest", 7), ("northwest", 8)]

/-- Lookup in the modelled `sharp.gravity` object. -/
def gravityLookup (k : String) : Option Int :=
  (sharpGravity.find? (fun p => p.1 == k)).map (fun p => p.2)

/-- Hex digit for percent-encoding (uppercase, as `encodeURI` produces). -/
def hexDigit (n : Nat) : Char :=
  if n < 10 then Char.ofNat (48 + n) else Char.ofNat (55 + n)

/-- Percent-encode one UTF-8 byte. -/
def percentByte (b : UInt8) : String :=
  String.mk [Char.ofNat 37, hexDigit (b.toNat / 16), hexDigit (b.toNat % 16)]

/-- The characters `encodeURI` leaves unescaped: alphanumerics, the marks,
and the URI reserved set including `#`. -/
def uriUnescaped (c : Char) : Bool :=
  c.isAlpha || c.isDigit ||
  c == '-' || c == '_' || c == '.' || c == '!' || c == '~' || c == '*' ||
  c == '\'' || c == '(' || c == ')' ||
  c == ';' || c == '/' || c == '?' || c == ':' || c == '@' || c == '&' ||
  c == '=' || c == '+' || c == '$' || c == ',' || c == '#'

/-- JS `encodeURI`: every character outside the unescaped set is replaced by
the percent-encoding of its UTF-8 bytes. -/
def encodeURI (s : String) : String :=
  String.join (s.toList.map (fun c =>
    if uriUnescaped c then String.singleton c
    else String.join (((String.singleton c).toUTF8).toList.map percentByte)))

/-- One transform stage of the compiled sharp pipeline, tagged by the sharp
operation invoked and carrying the arguments passed to it. The output-format
stage records whether `toFormat` was called with the whole format value
(one argument) or with `(format.type, format.option)` (two arguments). -/
inductive Stage where
  | resize (w h opt : JSVal)
  | background (v : JSVal)
  | crop (g : Int)
  | embed
  | max
  | min
  | withoutEnlargement
  | ignoreAspectRatio
  | extract (v : JSVal)
  | trim (n : Option Int)
  | flatten
  | extend (v : JSVal)
  | negate
  | rotate (v : JSVal)
  | flip
  | flop
  | blur (v : JSVal)
  | sharpen (v : JSVal)
  | gamma (v : JSVal)
  | greyscale
  | normalise
  | convolve (v : JSVal)
  | threshold (v : JSVal)
  | toColourspace (v : JSVal)
  | withMetadata (v : JSVal)
  | toFormatOne (v : JSVal)
  | toFormatTwo (t o : JSVal)

/-- Own properties of a value (empty for non-objects). -/
def propsOf : JSVal → List (String × JSVal)
  | .obj props => props
  | _ => []

/-- `Object.assign({}, base, upd)` on property lists: every key of `base`
keeps its position but takes the value from `upd` when `upd` also has the
key; keys only in `upd` are appended. -/
def assignProps (base upd : List (String × JSVal)) : List (String × JSVal) :=
  base.map (fun p =>
    match upd.find? (fun q => q.1 == p.1) with
    | some q => (p.1, q.2)
    | none => p) ++
  upd.filter (fun q => !(base.any (fun p => p.1 == q.1)))

/-- `MulterSharp.defaultOptions` (src/index.js lines 94-124): `acl` is
`"private"`, `resize` is `true`, every other listed toggle is `false`. -/
def defaultOptions : JSVal :=
  .obj
    [("acl", .string "private"),
     ("resize", .boolean true),
     ("crop", .boolean false),
     ("background", .boolean false),
     ("embed", .boolean false),
     ("max", .boolean false),
     ("min", .boolean false),
     ("withoutEnlargement", .boolean false),
     ("ignoreAspectRatio", .boolean false),
     ("extract", .boolean false),
     ("trim", .boolean false),
     ("flatten", .boolean false),
     ("extend", .boolean false),
     ("negate", .boolean false),
     ("rotate", .boolean false),
     ("flip", .boolean false),
     ("flop", .boolean false),
     ("blur", .boolean false),
     ("sharpen", .boolean false),
     ("gamma", .boolean false),
     ("grayscale", .boolean false),
     ("greyscale", .boolean false),
     ("normalize", .boolean false),
     ("normalise", .boolean false),
     ("withMetadata", .boolean false),
     ("convolve", .boolean false),
     ("threshold", .boolean false),
     ("toColourspace", .boolean false),
     ("toColorspace", .boolean false)]

/-- `Object.assign({}, MulterSharp.defaultOptions, options || {})`
(src/index.js line 29). -/
def mergeOptions (options : JSVal) : JSVal :=
  .obj (assignProps (propsOf defaultOptions) (propsOf (jsOr options (.obj []))))

/-- `getFormat` (src/index.js lines 250-255): the MIME lookup of
`format.type` when `format` is an object owning a `type` property, else the
MIME lookup of `format` itself. -/
def getFormat (format : JSVal) : JSVal :=
  if isObjectType format && hasOwn format "type" then mimeLookup (format.get "type")
  else mimeLookup format

/-- `transformer` (src/index.js lines 136-248): compiles the options object
into the chain of sharp operations, modelled as the list of stages appended
to the initially empty `sharp()` stream, in source order. -/
def transformer (options : JSVal) : List Stage :=
  let s : List Stage := []
  let s := if truthy (options.get "resize") && truthy (options.get "size") then
      s ++ [Stage.resize ((options.get "size").get "width") ((options.get "size").get "height")
              ((options.get "size").get "option")] else s
  let s := if truthy (options.get "background") then s ++ [Stage.background (options.get "background")] else s
  let s := if truthy (options.get "crop") && (gravityLookup (toPropKey (options.get "crop"))).isSome then
      s ++ [Stage.crop ((gravityLookup (toPropKey (options.get "crop"))).getD 0)] else s
  let s := if truthy (options.get "embed") then s ++ [Stage.embed] else s
  let s := if truthy (options.get "max") then s ++ [Stage.max] else s
  let s := if truthy (options.get "min") then s ++ [Stage.min] else s
  let s := if truthy (options.get "withoutEnlargement") then s ++ [Stage.withoutEnlargement] else s
  let s := if truthy (options.get "ignoreAspectRatio") then s ++ [Stage.ignoreAspectRatio] else s
  let s := if truthy (options.get "extract") then s ++ [Stage.extract (options.get "extract")] else s
  let s := if truthy (options.get "trim") then s ++ [Stage.trim (parseIntJS (options.get "trim"))] else s
  let s := if truthy (options.get "flatten") then s ++ [Stage.flatten] else s
  let s := if truthy (options.get "extend") then s ++ [Stage.extend (options.get "extend")] else s
  let s := if truthy (options.get "negate") then s ++ [Stage.negate] else s
  let s := if jsIncludesNums [0, 90, 180, 270] (options.get "rotate") then
      s ++ [Stage.rotate (options.get "rotate")] else s
  let s := if truthy (options.get "flip") then s ++ [Stage.flip] else s
  let s := if truthy (options.get "flop") then s ++ [Stage.flop] else s
  let s := if truthy (options.get "blur") then s ++ [Stage.blur (options.get "blur")] else s
  let s := if truthy (options.get "sharpen") then s ++ [Stage.sharpen (options.get "sharpen")] else s
  let s := if truthy (options.get "gamma") then s ++ [Stage.gamma (options.get "gamma")] else s
  let s := if truthy (options.get "grayscale") || truthy (options.get "greyscale") then
      s ++ [Stage.greyscale] else s
  let s := if truthy (options.get "normalize") || truthy (options.get "normalise") then
      s ++ [Stage.normalise] else s
  let s := if truthy (options.get "convolve") then s ++ [Stage.convolve (options.get "convolve")] else s
  let s := if truthy (options.get "threshold") then s ++ [Stage.threshold (options.get "threshold")] else s
  let s := if truthy (options.get "toColourspace") || truthy (options.get "toColorspace") then
      s ++ [Stage.toColourspace (jsOr (options.get "toColourspace") (options.get "toColorspace"))] else s
  let s := if truthy (options.get "withMetadata") then s ++ [Stage.withMetadata (options.get "withMetadata")] else s
  let s := if truthy (options.get "format") then
      (if isObjectType (options.get "format") && hasOwn (options.get "format") "type" &&
          hasOwn (options.get "format") "option" then
        s ++ [Stage.toFormatTwo ((options.get "format").get "type") ((options.get "format").get "option")]
      else s ++ [Stage.toFormatOne (options.get "format")]) else s
  s

/-- One optional stage of the declarative pipeline description: the stage
when its guard holds, nothing otherwise. -/
def stageIf (g : Bool) (x : Stage) : List Stage := if g then [x] else []

/-- The transform pipeline as the specification's section 4.2 describes it:
the 26 stages in their fixed order, each present exactly when its toggle is
truthy and its stage-specific guard passes. Stated following the spec's
ordered list, to be compared against `transformer` from the source. -/
def pipelineSpec (options : JSVal) : List Stage :=
  stageIf (truthy (options.get "resize") && truthy (options.get "size"))
    (Stage.resize ((options.get "size").get "width") ((options.get "size").get "height")
      ((options.get "size").get "option")) ++
  stageIf (truthy (options.get "background")) (Stage.background (options.get "background")) ++
  stageIf (truthy (options.get "crop") && (gravityLookup (toPropKey (options.get "crop"))).isSome)
    (Stage.crop ((gravityLookup (toPropKey (options.get "crop"))).getD 0)) ++
  stageIf (truthy (options.get "embed")) Stage.embed ++
  stageIf (truthy (options.get "max")) Stage.max ++
  stageIf (truthy (options.get "min")) Stage.min ++
  stageIf (truthy (options.get "withoutEnlargement")) Stage.withoutEnlargement ++
  stageIf (truthy (options.get "ignoreAspectRatio")) Stage.ignoreAspectRatio ++
  stageIf (truthy (options.get "extract")) (Stage.extract (options.get "extract")) ++
  stageIf (truthy (options.get "trim")) (Stage.trim (parseIntJS (options.get "trim"))) ++
  stageIf (truthy (options.get "flatten")) Stage.flatten ++
  stageIf (truthy (options.get "extend")) (Stage.extend (options.get "extend")) ++
  stageIf (truthy (options.get "negate")) Stage.negate ++
  stageIf (jsIncludesNums [0, 90, 180, 270] (options.get "rotate"))
    (Stage.rotate (options.get "rotate")) ++
  stageIf (truthy (options.get "flip")) Stage.flip ++
  stageIf (truthy (options.get "flop")) Stage.flop ++
  stageIf (truthy (options.get "blur")) (Stage.blur (options.get "blur")) ++
  stageIf (truthy (options.get "sharpen")) (Stage.sharpen (options.get "sharpen")) ++
  stageIf (truthy (options.get "gamma")) (Stage.gamma (options.get "gamma")) ++
  stageIf (truthy (options.get "grayscale") || truthy (options.get "greyscale")) Stage.greyscale ++
  stageIf (truthy (options.get "normalize") || truthy (options.get "normalise")) Stage.normalise ++
  stageIf (truthy (options.get "convolve")) (Stage.convolve (options.get "convolve")) ++
  stageIf (truthy (options.get "threshold")) (Stage.threshold (options.get "threshold")) ++
  stageIf (truthy (options.get "toColourspace") || truthy (options.get "toColorspace"))
    (Stage.toColourspace (jsOr (options.get "toColourspace") (options.get "toColorspace"))) ++
  stageIf (truthy (options.get "withMetadata")) (Stage.withMetadata (options.get "withMetadata")) ++
  stageIf (truthy (options.get "format") &&
      (isObjectType (options.get "format") && hasOwn (options.get "format") "type" &&
        hasOwn (options.get "format") "option"))
    (Stage.toFormatTwo ((options.get "format").get "type") ((options.get "format").get "option")) ++
  stageIf (truthy (options.get "format") &&
      !(isObjectType (options.get "format") && hasOwn (options.get "format") "type" &&
        hasOwn (options.get "format") "option"))
    (Stage.toFormatOne (options.get "format"))

/-- Object-key computation of `_handleFile` (src/index.js line 59):
`typeof destination === "string" && destination.length > 0` selects the
template `destination + "/" + filename`, else the filename value alone. -/
def gcNameHandle (destination filename : JSVal) : JSVal :=
  match destination with
  | .string d =>
    if d.length > 0 then .string (d ++ "/" ++ jsToString filename) else filename
  | _ => filename

/-- Object-key computation of `_removeFile` (src/index.js line 87), written
over the same rule as line 59 with the stored filename in place of the
resolved one. -/
def gcNameRemove (destination filename : JSVal) : JSVal :=
  match destination with
  | .string d =>
    if d.length > 0 then .string (d ++ "/" ++ jsToString filename) else filename
  | _ => filename

/-- The per-request file descriptor fields the engine reads: the declared
MIME type (`file.mimetype`) and, for removal, the stored `file.filename`. -/
structure FileDesc where
  mimetype : JSVal
  filename : JSVal

/-- The success value assembled at src/index.js lines 74-78. -/
structure UploadResult where
  mimetype : JSVal
  path : String
  filename : JSVal

/-- One invocation of the completion callback `cb`: with an error, with a
success result, or with no arguments beyond a null error (as the storage
delete reports completion). -/
inductive CbCall where
  | err (e : String)
  | success (r : UploadResult)
  | okEmpty

/-- The terminal event of the piped stream chain: an error from the
transform stage, an error from the storage write stream, or the write
stream's `finish`. -/
inductive StreamResult where
  | transformError (e : String)
  | storageError (e : String)
  | finish

/-- Observable storage side effects of the two verbs. -/
inductive Effect where
  | openWriteStream (gcName : JSVal) (acl : JSVal) (contentType : JSVal)
  | deleteObject (gcName : JSVal)

/-- The storage-client interactions of the constructor. -/
inductive CtorEvent where
  | createStorageClient (projectId keyFilename : JSVal)
  | bucketHandle (bucket : JSVal)

/-- The engine instance state the verbs read: the merged options object. -/
structure MulterSharpState where
  options : JSVal

/-- The process environment variables the constructor consults. -/
structure Env where
  gcsBucket : Option String
  gcloudProject : Option String
  gcsKeyfile : Option String

/-- Reading an environment variable: a string when set, else `undefined`. -/
def envJS : Option String → JSVal
  | some s => .string s
  | none => .undefined

/-- The constructor (src/index.js lines 11-44): computes the gcOptions
values with their environment fallbacks, validates the user-supplied
`bucket`, `projectId` and `keyFilename` properties, throwing (modelled as
`Except.error`) on the first falsy one, and only afterwards creates the
storage client and bucket handle (the emitted events) and merges the
options. -/
def constructor (env : Env) (options : JSVal) :
    List CtorEvent × Except String MulterSharpState :=
  let gcBucket := jsOr (options.get "bucket") (jsOr (envJS env.gcsBucket) .null)
  let gcProjectId := jsOr (options.get "projectId") (jsOr (envJS env.gcloudProject) .null)
  let gcKeyFilename := jsOr (options.get "keyFilename") (jsOr (envJS env.gcsKeyfile) .null)
  if !truthy (options.get "bucket") then
    ([], .error "You have to specify bucket for Google Cloud Storage to work.")
  else if !truthy (options.get "projectId") then
    ([], .error "You have to specify project id for Google Cloud Storage to work.")
  else if !truthy (options.get "keyFilename") then
    ([], .error "You have to specify credentials key file for Google Cloud Storage to work.")
  else
    ([CtorEvent.createStorageClient gcProjectId gcKeyFilename, CtorEvent.bucketHandle gcBucket],
     .ok { options := mergeOptions options })

/-- `_handleFile` (src/index.js lines 46-82), as a function of the outcomes
of its asynchronous collaborators: what the destination resolver passed to
its callback, what the filename resolver passed, and the terminal event of
the piped stream chain. Returns the invocations of the completion callback
`cb`, in order, together with the storage side effects. The source's missing
`return` after `cb(destErr)` and `cb(fileErr)` is reproduced: execution
falls through into the next stage, so the stream is opened and piped
regardless of resolver errors. -/
def handleFile (st : MulterSharpState) (file : FileDesc)
    (destErr : Option String) (destination : JSVal)
    (fileErr : Option String) (filename : JSVal)
    (streamRes : StreamResult) : List CbCall × List Effect :=
  let o := st.options
  let destCalls := match destErr with
    | some e => [CbCall.err e]
    | none => []
  let fileCalls := match fileErr with
    | some e => [CbCall.err e]
    | none => []
  let contentType := jsOr (getFormat (o.get "format")) file.mimetype
  let gcName := gcNameHandle destination filename
  let streamCall := match streamRes with
    | .transformError e => CbCall.err e
    | .storageError e => CbCall.err e
    | .finish => CbCall.success
        { mimetype := jsOr (getFormat (o.get "format")) file.mimetype,
          path := encodeURI ("https://storage.googleapis.com/" ++
                    jsToString (o.get "bucket") ++ "/" ++ jsToString gcName),
          filename := filename }
  (destCalls ++ fileCalls ++ [streamCall],
   [Effect.openWriteStream gcName (o.get "acl") contentType])

/-- `_removeFile` (src/index.js lines 84-91), as a function of the
destination resolver's outcome and the storage delete's outcome. The missing
`return` after `cb(destErr)` is reproduced: the delete is issued regardless. -/
def removeFile (st : MulterSharpState) (file : FileDesc)
    (destErr : Option String) (destination : JSVal)
    (deleteErr : Option String) : List CbCall × List Effect :=
  let destCalls := match destErr with
    | some e => [CbCall.err e]
    | none => []
  let gcName := gcNameRemove destination file.filename
  let deleteCall := match deleteErr with
    | some e => CbCall.err e
    | none => CbCall.okEmpty
  (destCalls ++ [deleteCall], [Effect.deleteObject gcName])

/-- Recognizes a resize stage. -/
def isResizeStage : Stage → Bool
  | .resize _ _ _ => true
  | _ => false

/-- Recognizes a rotate stage. -/
def isRotateStage : Stage → Bool
  | .rotate _ => true
  | _ => false

/-- Recognizes a two-argument `toFormat` stage. -/
def isFormatTwoStage : Stage → Bool
  | .toFormatTwo _ _ => true
  | _ => false

/-- A minimal valid configuration, merged as the constructor merges it. -/
def sampleState : MulterSharpState :=
  { options := mergeOptions (.obj
      [("bucket", .string "b"), ("projectId", .string "p"), ("keyFilename", .string "k")]) }

/-- A valid configuration that adds a `size` spec, merged as the constructor
merges it. -/
def sampleSizeOptions : JSVal :=
  mergeOptions (.obj
    [("bucket", .string "b"), ("projectId", .string "p"), ("keyFilename", .string "k"),
     ("size", .obj [("width", .number 100), ("height", .number 100)])])

/-- A configuration whose `format` is an object owning `type` but not
`option`, merged as the constructor merges it. -/
def sampleFormatOptions : JSVal :=
  mergeOptions (.obj
    [("bucket", .string "b"), ("projectId", .string "p"), ("keyFilename", .string "k"),
     ("format", .obj [("type", .string "png")])])

theorem ifAppend (g : Bool) (s : List Stage) (x : Stage) :
    (if g then s ++ [x] else s) = s ++ stageIf g x := by
  cases g <;> simp [stageIf]

theorem ifAppendTwo (g h : Bool) (s : List Stage) (x y : Stage) :
    (if g then (if h then s ++ [x] else s ++ [y]) else s) =
      s ++ (stageIf (g && h) x ++ stageIf (g && !h) y) := by
  cases g <;> cases h <;> simp [stageIf]

/-- The imperative chain of `transformer` equals the declarative ordered
pipeline of the specification. -/
theorem transformer_eq_pipelineSpec (options : JSVal) :
    transformer options = pipelineSpec options := by
  simp only [transformer, pipelineSpec, ifAppend, ifAppendTwo]
  simp only [List.nil_append, List.append_assoc]

/-- C4: the compiled transform pipeline applies the stages in the fixed
26-position order of the specification (resize first, output-format
conversion last); each stage is inserted if and only if its toggle is truthy
and passes its stage-specific guard, and a falsy or absent toggle skips the
stage entirely. -/
theorem claim_C4_fixed_stage_order (options : JSVal) :
    transformer options = pipelineSpec options :=
  transformer_eq_pipelineSpec options

/-- C2: for destination strings `d` and filenames `f` the object key is `f`
when `d` is empty and `d ++ "/" ++ f` otherwise, and the upload path and the
removal path compute the key by the identical rule on all inputs. -/
theorem claim_C2_object_key_round_trip (d f : String) :
    gcNameHandle (.string d) (.string f) =
      .string (if d = "" then f else d ++ "/" ++ f) ∧
    (∀ dest fn : JSVal, gcNameRemove dest fn = gcNameHandle dest fn) := by
  constructor
  · by_cases hd : d = ""
    · subst hd
      simp [gcNameHandle]
    · have hlen : 0 < d.length := by
        rcases d with ⟨cs⟩
        cases cs with
        | nil => exact absurd rfl hd
        | cons a t => simp [String.length]
      simp [gcNameHandle, hlen, hd, jsToString]
  · intro dest fn
    cases dest <;> rfl

/-- C9: object-key computation is total over arbitrary destination values:
in both `_handleFile` and `_removeFile`, a destination that is not a string
or is the empty string yields the filename alone as the key. -/
theorem claim_C9_key_totality (dest fn : JSVal)
    (h : (∀ s : String, dest ≠ .string s) ∨ dest = .string "") :
    gcNameHandle dest fn = fn ∧ gcNameRemove dest fn = fn := by
  cases dest with
  | string s =>
    rcases h with h | h
    · exact absurd rfl (h s)
    · injection h with hs
      subst hs
      refine ⟨?_, ?_⟩ <;> simp [gcNameHandle, gcNameRemove]
  | undefined => exact ⟨rfl, rfl⟩
  | null => exact ⟨rfl, rfl⟩
  | boolean b => exact ⟨rfl, rfl⟩
  | number n => exact ⟨rfl, rfl⟩
  | obj props => exact ⟨rfl, rfl⟩

theorem claim_C9_witness :
    gcNameHandle JSVal.undefined (JSVal.string "abc") = JSVal.string "abc" ∧
    gcNameRemove JSVal.undefined (JSVal.string "abc") = JSVal.string "abc" :=
  claim_C9_key_totality JSVal.undefined (JSVal.string "abc")
    (Or.inl (fun s hs => JSVal.noConfusion hs))

/-- C3: for every options object whose `bucket`, `projectId` or
`keyFilename` is missing (falsy), construction throws synchronously and no
storage-client interaction happens (the constructor's event trace is empty,
so no storage-client handle is created). -/
theorem claim_C3_construction_fails_fast (env : Env) (options : JSVal)
    (h : truthy (options.get "bucket") = false ∨
         truthy (options.get "projectId") = false ∨
         truthy (options.get "keyFilename") = false) :
    (∃ msg, (constructor env options).2 = Except.error msg) ∧
    (constructor env options).1 = [] := by
  by_cases hb : truthy (options.get "bucket")
  · by_cases hp : truthy (options.get "projectId")
    · by_cases hk : truthy (options.get "keyFilename")
      · rcases h with h | h | h <;> simp_all
      · simp [constructor, hb, hp, hk]
    · simp [constructor, hb, hp]
  · simp [constructor, hb]

theorem claim_C3_witness :
    (∃ msg, (constructor ⟨none, none, none⟩ (.obj [])).2 = Except.error msg) ∧
    (constructor ⟨none, none, none⟩ (.obj [])).1 = [] :=
  claim_C3_construction_fails_fast ⟨none, none, none⟩ (.obj []) (Or.inl rfl)

/-- C8: the construction-time validation tests the user-supplied options
properties directly, so a falsy `bucket` (respectively `projectId`,
`keyFilename`) throws for every environment, even one with the fallback
variable set; the environment fallbacks only feed the values the storage
client is constructed with. -/
theorem claim_C8_env_fallback_never_validates (env : Env) (options : JSVal) :
    (truthy (options.get "bucket") = false →
      (constructor env options).2 =
        Except.error "You have to specify bucket for Google Cloud Storage to work.") ∧
    (truthy (options.get "bucket") = true → truthy (options.get "projectId") = false →
      (constructor env options).2 =
        Except.error "You have to specify project id for Google Cloud Storage to work.") ∧
    (truthy (options.get "bucket") = true → truthy (options.get "projectId") = true →
      truthy (options.get "keyFilename") = false →
      (constructor env options).2 =
        Except.error "You have to specify credentials key file for Google Cloud Storage to work.") ∧
    (truthy (options.get "bucket") = true → truthy (options.get "projectId") = true →
      truthy (options.get "keyFilename") = true →
      (constructor env options).1 =
        [CtorEvent.createStorageClient
          (jsOr (options.get "projectId") (jsOr (envJS env.gcloudProject) .null))
          (jsOr (options.get "keyFilename") (jsOr (envJS env.gcsKeyfile) .null)),
         CtorEvent.bucketHandle (jsOr (options.get "bucket") (jsOr (envJS env.gcsBucket) .null))]) := by
  refine ⟨?_, ?_, ?_, ?_⟩
  · intro hb
    simp [constructor, hb]
  · intro hb hp
    simp [constructor, hb, hp]
  · intro hb hp hk
    simp [constructor, hb, hp, hk]
  · intro hb hp hk
    simp [constructor, hb, hp, hk]

theorem strLengthPos (d : String) (hd : d ≠ "") : 0 < d.length := by
  rcases d with ⟨cs⟩
  cases cs with
  | nil => exact absurd rfl hd
  | cons a t => simp [String.length]

theorem countP_stageIf (p : Stage → Bool) (g : Bool) (x : Stage) :
    (stageIf g x).countP p = if g then (if p x then 1 else 0) else 0 := by
  cases g <;> simp [stageIf, List.countP_cons, List.countP_nil]

theorem filter_stageIf (p : Stage → Bool) (g : Bool) (x : Stage) :
    (stageIf g x).filter p = if g then (if p x then [x] else []) else [] := by
  cases g <;> cases hp : p x <;> simp [stageIf, List.filter_cons, hp]

theorem stageIf_false (x : Stage) : stageIf false x = [] := rfl

theorem getLastSome {α : Type} (l1 l2 : List α) (x : α) (h : l2.getLast? = some x) :
    (l1 ++ l2).getLast? = some x := by
  have hne : l2 ≠ [] := by
    intro he
    subst he
    simp [List.getLast?] at h
  rw [List.getLast?_append_of_ne_nil l1 hne, h]

/-- A format value that is not truthy never produces a MIME type: `getFormat`
yields `false` on it. -/
theorem getFormat_falsy (fmt : JSVal) (h : truthy fmt = false) :
    getFormat fmt = .boolean false := by
  cases fmt with
  | string s =>
    have hs : s.length = 0 := by simpa [truthy] using h
    have hse : s = "" := by
      rcases s with ⟨cs⟩
      cases cs with
      | nil => rfl
      | cons a t => simp [String.length] at hs
    subst hse
    rfl
  | boolean b =>
    cases b with
    | false => rfl
    | true => simp [truthy] at h
  | number n => rfl
  | obj props => simp [truthy] at h
  | undefined => rfl
  | null => rfl

/-- C5: a rotate value outside {0, 90, 180, 270} (SameValueZero) inserts no
rotate stage and leaves the pipeline exactly as for any other non-matching
rotate value; a rotate value in the set inserts the rotate stage with that
angle. -/
theorem claim_C5_rotate_cardinal_whitelist (options options2 : JSVal)
    (hagree : ∀ k : String, k ≠ "rotate" → options.get k = options2.get k) :
    ((transformer options).countP isRotateStage =
      if jsIncludesNums [0, 90, 180, 270] (options.get "rotate") then 1 else 0) ∧
    (jsIncludesNums [0, 90, 180, 270] (options.get "rotate") = true →
      (transformer options).filter isRotateStage = [Stage.rotate (options.get "rotate")]) ∧
    (jsIncludesNums [0, 90, 180, 270] (options.get "rotate") = false →
      jsIncludesNums [0, 90, 180, 270] (options2.get "rotate") = false →
      transformer options = transformer options2) := by
  refine ⟨?_, ?_, ?_⟩
  · simp [transformer_eq_pipelineSpec, pipelineSpec, List.countP_append, countP_stageIf,
      isRotateStage]
  · intro h1
    simp [transformer_eq_pipelineSpec, pipelineSpec, List.filter_append, filter_stageIf, h1,
      isRotateStage]
  · intro h1 h2
    rw [transformer_eq_pipelineSpec, transformer_eq_pipelineSpec]
    simp only [pipelineSpec, h1, h2, stageIf_false,
      hagree "resize" (by decide), hagree "size" (by decide),
      hagree "background" (by decide), hagree "crop" (by decide),
      hagree "embed" (by decide), hagree "max" (by decide),
      hagree "min" (by decide), hagree "withoutEnlargement" (by decide),
      hagree "ignoreAspectRatio" (by decide), hagree "extract" (by decide),
      hagree "trim" (by decide), hagree "flatten" (by decide),
      hagree "extend" (by decide), hagree "negate" (by decide),
      hagree "flip" (by decide), hagree "flop" (by decide),
      hagree "blur" (by decide), hagree "sharpen" (by decide),
      hagree "gamma" (by decide), hagree "grayscale" (by decide),
      hagree "greyscale" (by decide), hagree "normalize" (by decide),
      hagree "normalise" (by decide), hagree "convolve" (by decide),
      hagree "threshold" (by decide), hagree "toColourspace" (by decide),
      hagree "toColorspace" (by decide), hagree "withMetadata" (by decide),
      hagree "format" (by decide)]

theorem claim_C5_witness :
    ((transformer (.obj [("rotate", .number 90)])).countP isRotateStage =
      if jsIncludesNums [0, 90, 180, 270] ((JSVal.obj [("rotate", .number 90)]).get "rotate")
      then 1 else 0) ∧
    (jsIncludesNums [0, 90, 180, 270] ((JSVal.obj [("rotate", .number 90)]).get "rotate") = true →
      (transformer (.obj [("rotate", .number 90)])).filter isRotateStage =
        [Stage.rotate ((JSVal.obj [("rotate", .number 90)]).get "rotate")]) ∧
    (jsIncludesNums [0, 90, 180, 270] ((JSVal.obj [("rotate", .number 90)]).get "rotate") = false →
      jsIncludesNums [0, 90, 180, 270] ((JSVal.obj []).get "rotate") = false →
      transformer (.obj [("rotate", .number 90)]) = transformer (.obj [])) :=
  claim_C5_rotate_cardinal_whitelist (.obj [("rotate", .number 90)]) (.obj [])
    (fun k hk => by
      have h1 : ("rotate" == k) = false := by
        simpa using fun he => hk (by simpa using he.symm)
      simp [JSVal.get, List.find?, h1])

/-- C6: the pipeline contains a resize stage exactly when the resize toggle
and a size spec are both truthy; when both hold the resize stage is the
first stage with the configured width, height and option; with the default
`resize` of `true` but no `size` there is no resize stage. -/
theorem claim_C6_resize_guard (options : JSVal) :
    ((transformer options).countP isResizeStage =
      if truthy (options.get "resize") && truthy (options.get "size") then 1 else 0) ∧
    (truthy (options.get "resize") = true → truthy (options.get "size") = true →
      (transformer options).head? =
        some (Stage.resize ((options.get "size").get "width")
          ((options.get "size").get "height") ((options.get "size").get "option"))) ∧
    (truthy (sampleState.options.get "resize") = true ∧
      (transformer sampleState.options).countP isResizeStage = 0) ∧
    (transformer sampleSizeOptions).head? =
      some (Stage.resize (.number 100) (.number 100) .undefined) := by
  refine ⟨?_, ?_, ⟨rfl, rfl⟩, rfl⟩
  · simp [transformer_eq_pipelineSpec, pipelineSpec, List.countP_append, countP_stageIf,
      isResizeStage]
  · intro hr hs
    simp [transformer_eq_pipelineSpec, pipelineSpec, stageIf, hr, hs]

theorem claim_C6_witness :
    (transformer sampleSizeOptions).head? =
      some (Stage.resize ((sampleSizeOptions.get "size").get "width")
        ((sampleSizeOptions.get "size").get "height")
        ((sampleSizeOptions.get "size").get "option")) :=
  (claim_C6_resize_guard sampleSizeOptions).2.1 rfl rfl

theorem claim_C8_witness :
    truthy ((JSVal.obj [("projectId", .string "p"), ("keyFilename", .string "k")]).get "bucket")
      = false ∧
    (constructor ⟨some "env-bucket", some "env-proj", some "env-key"⟩
        (.obj [("projectId", .string "p"), ("keyFilename", .string "k")])).2 =
      Except.error "You have to specify bucket for Google Cloud Storage to work." :=
  ⟨rfl,
    (claim_C8_env_fallback_never_validates
      ⟨some "env-bucket", some "env-proj", some "env-key"⟩
      (.obj [("projectId", .string "p"), ("keyFilename", .string "k")])).1 rfl⟩

/-- C7: a successful upload invokes the callback once with
`{mimetype, path, filename}`: the mimetype (and the write stream's metadata
content type) is the MIME lookup of the configured output format when one is
configured (and recognized), else the inbound file's declared MIME type; the
path is the URI-encoded `https://storage.googleapis.com/{bucket}/{key}`,
where the destination segment and its slash are omitted exactly when the
destination is empty. -/
theorem claim_C7_success_result (o : JSVal) (file : FileDesc) (dest fname : JSVal)
    (hfmt : truthy (o.get "format") = true → truthy (getFormat (o.get "format")) = true) :
    handleFile ⟨o⟩ file none dest none fname .finish =
      ([CbCall.success
        { mimetype := if truthy (o.get "format") then getFormat (o.get "format") else file.mimetype,
          path := encodeURI ("https://storage.googleapis.com/" ++
            jsToString (o.get "bucket") ++ "/" ++ jsToString (gcNameHandle dest fname)),
          filename := fname }],
       [Effect.openWriteStream (gcNameHandle dest fname) (o.get "acl")
         (if truthy (o.get "format") then getFormat (o.get "format") else file.mimetype)]) ∧
    (∀ d f : String, jsToString (gcNameHandle (.string d) (.string f)) =
      if d = "" then f else d ++ "/" ++ f) := by
  constructor
  · have hm : jsOr (getFormat (o.get "format")) file.mimetype =
        if truthy (o.get "format") then getFormat (o.get "format") else file.mimetype := by
      by_cases hf : truthy (o.get "format") = true
      · simp [jsOr, hfmt hf, hf]
      · have hff : truthy (o.get "format") = false := by
          cases hb : truthy (o.get "format")
          · rfl
          · exact absurd hb hf
        simp [jsOr, getFormat_falsy (o.get "format") hff, hff,
          (show truthy (JSVal.boolean false) = false from rfl)]
    simp [handleFile, hm]
  · intro d f
    by_cases hd : d = ""
    · subst hd
      simp [gcNameHandle, jsToString]
    · simp [gcNameHandle, strLengthPos d hd, hd, jsToString]

theorem claim_C7_witness :
    handleFile ⟨sampleFormatOptions⟩ ⟨.string "image/jpeg", .undefined⟩ none
        (.string "public") none (.string "abc") .finish =
      ([CbCall.success
        { mimetype := if truthy (sampleFormatOptions.get "format")
            then getFormat (sampleFormatOptions.get "format") else JSVal.string "image/jpeg",
          path := encodeURI ("https://storage.googleapis.com/" ++
            jsToString (sampleFormatOptions.get "bucket") ++ "/" ++
            jsToString (gcNameHandle (.string "public") (.string "abc"))),
          filename := .string "abc" }],
       [Effect.openWriteStream (gcNameHandle (.string "public") (.string "abc"))
         (sampleFormatOptions.get "acl")
         (if truthy (sampleFormatOptions.get "format")
            then getFormat (sampleFormatOptions.get "format") else JSVal.string "image/jpeg")]) ∧
    (∀ d f : String, jsToString (gcNameHandle (.string d) (.string f)) =
      if d = "" then f else d ++ "/" ++ f) :=
  claim_C7_success_result sampleFormatOptions ⟨.string "image/jpeg", .undefined⟩
    (.string "public") (.string "abc") (fun _ => rfl)

/-- C10: for a format object owning `type` but not `option`, the content
type and result mimetype come from the MIME lookup of `format.type` alone,
while the compiled output-format stage passes the entire object as a single
argument to `toFormat` rather than using the two-argument form. -/
theorem claim_C10_format_object_missing_option (o : JSVal) (file : FileDesc)
    (dest fname : JSVal) (props : List (String × JSVal))
    (hfmt : o.get "format" = .obj props)
    (htype : hasOwn (o.get "format") "type" = true)
    (hopt : hasOwn (o.get "format") "option" = false) :
    getFormat (o.get "format") = mimeLookup ((o.get "format").get "type") ∧
    (transformer o).getLast? = some (Stage.toFormatOne (o.get "format")) ∧
    (transformer o).countP isFormatTwoStage = 0 ∧
    (handleFile ⟨o⟩ file none dest none fname .finish).2 =
      [Effect.openWriteStream (gcNameHandle dest fname) (o.get "acl")
        (jsOr (mimeLookup ((o.get "format").get "type")) file.mimetype)] := by
  have hobj : isObjectType (o.get "format") = true := by rw [hfmt]; rfl
  have htr : truthy (o.get "format") = true := by rw [hfmt]; rfl
  refine ⟨?_, ?_, ?_, ?_⟩
  · simp [getFormat, hobj, htype]
  · rw [transformer_eq_pipelineSpec, pipelineSpec]
    repeat apply getLastSome
    simp [stageIf, htr, hobj, htype, hopt]
  · simp [transformer_eq_pipelineSpec, pipelineSpec, List.countP_append, countP_stageIf,
      isFormatTwoStage, htr, hobj, htype, hopt]
  · simp [handleFile, getFormat, hobj, htype]

theorem claim_C10_witness :
    getFormat (sampleFormatOptions.get "format") =
      mimeLookup ((sampleFormatOptions.get "format").get "type") ∧
    (transformer sampleFormatOptions).getLast? =
      some (Stage.toFormatOne (sampleFormatOptions.get "format")) ∧
    (transformer sampleFormatOptions).countP isFormatTwoStage = 0 ∧
    (handleFile ⟨sampleFormatOptions⟩ ⟨.string "image/jpeg", .undefined⟩ none
        (.string "d") none (.string "f") .finish).2 =
      [Effect.openWriteStream (gcNameHandle (.string "d") (.string "f"))
        (sampleFormatOptions.get "acl")
        (jsOr (mimeLookup ((sampleFormatOptions.get "format").get "type"))
          (JSVal.string "image/jpeg"))] :=
  claim_C10_format_object_missing_option sampleFormatOptions ⟨.string "image/jpeg", .undefined⟩
    (.string "d") (.string "f") [("type", .string "png")] rfl rfl rfl

/-- C1 (code bug): evaluating `_handleFile` at a destination-resolution
error shows the completion callback invoked twice — first with the error,
then with a success result — and the storage write stream opened despite the
error, because the source does not return after `cb(destErr)`. This
contradicts the claim that the first error is the sole callback invocation
and that a naming error aborts before any stream is opened. -/
theorem claim_C1_destination_error_double_callback :
    (handleFile sampleState ⟨.string "image/png", .undefined⟩
        (some "naming failed") .undefined none (.string "abc123") .finish).1 =
      [CbCall.err "naming failed",
       CbCall.success
        { mimetype := .string "image/png",
          path := encodeURI "https://storage.googleapis.com/b/abc123",
          filename := .string "abc123" }] ∧
    (handleFile sampleState ⟨.string "image/png", .undefined⟩
        (some "naming failed") .undefined none (.string "abc123") .finish).2 =
      [Effect.openWriteStream (.string "abc123") (.string "private") (.string "image/png")] := by
  exact ⟨rfl, rfl⟩

end MulterSharp
